import Mathlib

/-!
Verification development for the Audio-Forge mastering pipeline
(`src/components/CyberComponents.tsx`).

The development shallowly embeds the three algorithmic cores of the
program:

* the signal analyzer `runClientAnalysis` (windowed RMS / peak /
  noise-floor estimation over a decoded sample buffer),
* the parameter mapper (the formulas deriving concrete filter
  parameters from an `AudioConfig`), and
* the command planner `generateFFmpegCommand` (preview and full
  two-pass script generation).

JavaScript numbers are modelled as rationals (`ℚ`); the decibel
outputs of the analyzer, which involve `log10`, live in `ℝ` and are
expressed as real-valued functions of the rational core.  String
building mirrors the template literals of the source, line by line.
-/

namespace AudioForge

/-! ## Data model (`AudioConfig`, presets) -/

/-- The mastering configuration object.  All fields are JS numbers in the
source; they are modelled as rationals. -/
structure AudioConfig where
  highpassFreq : ℚ
  lowpassFreq : ℚ
  deesserFreq : ℚ
  deesserAmount : ℚ
  noiseReduction : ℚ
  compressionAmount : ℚ
  loudnormTarget : ℚ
  loudnormTp : ℚ
  loudnormLra : ℚ
  bitrate : ℚ
  flacCompressionLevel : ℚ
deriving DecidableEq

/-- `DEFAULT_CONFIG` from the source. -/
def DEFAULT_CONFIG : AudioConfig where
  highpassFreq := 80
  lowpassFreq := 12000
  deesserFreq := 6000
  deesserAmount := 0.5
  noiseReduction := 0.2
  compressionAmount := 0.3
  loudnormTarget := -19
  loudnormTp := -3.0
  loudnormLra := 11
  bitrate := 128
  flacCompressionLevel := 6

/-- A partial configuration: the `Partial<AudioConfig>` override bundle of a
preset.  A `none` field is absent from the bundle. -/
structure PartialConfig where
  highpassFreq : Option ℚ := none
  lowpassFreq : Option ℚ := none
  deesserFreq : Option ℚ := none
  deesserAmount : Option ℚ := none
  noiseReduction : Option ℚ := none
  compressionAmount : Option ℚ := none
  loudnormTarget : Option ℚ := none
  loudnormTp : Option ℚ := none
  loudnormLra : Option ℚ := none
  bitrate : Option ℚ := none
  flacCompressionLevel : Option ℚ := none
deriving DecidableEq

/-- A named preset from the `PRESETS` library. -/
structure AudioPreset where
  id : String
  name : String
  description : String
  config : PartialConfig
deriving DecidableEq

/-- The `acx` preset. -/
def acxPreset : AudioPreset where
  id := "acx"
  name := "ACX Standard"
  description := "Meets Audible requirements (-19 LUFS, -3dB TP)"
  config := { loudnormTarget := some (-20), loudnormTp := some (-3.0),
              highpassFreq := some 80, compressionAmount := some 0.3 }

/-- The `warm` preset. -/
def warmPreset : AudioPreset where
  id := "warm"
  name := "Warm Narrator"
  description := "Enhanced low-mids, gentle processing"
  config := { highpassFreq := some 60, lowpassFreq := some 8000,
              compressionAmount := some 0.2, loudnormTarget := some (-20) }

/-- The `clear` preset. -/
def clearPreset : AudioPreset where
  id := "clear"
  name := "Crystal Clear"
  description := "Bright and articulate, good for non-fiction"
  config := { highpassFreq := some 90, lowpassFreq := some 14000,
              deesserAmount := some 0.7, compressionAmount := some 0.4 }

/-- The `home` preset. -/
def homePreset : AudioPreset where
  id := "home"
  name := "Home Studio Fix"
  description := "Heavier noise reduction for untreated rooms"
  config := { noiseReduction := some 0.6, highpassFreq := some 100,
              compressionAmount := some 0.5 }

/-- The `radio` preset. -/
def radioPreset : AudioPreset where
  id := "radio"
  name := "Radio Ready"
  description := "Compressed, punchy, loud"
  config := { loudnormTarget := some (-16), loudnormTp := some (-1.0),
              compressionAmount := some 0.8, lowpassFreq := some 10000 }

/-- The `PRESETS` library of the source, in source order. -/
def PRESETS : List AudioPreset :=
  [acxPreset, warmPreset, clearPreset, homePreset, radioPreset]

/-- Layer a partial override bundle onto a configuration: the semantics of
the JS spread `{ ...prev, ...preset.config }`.  Present fields override,
absent fields keep the previous value. -/
def applyPartial (p : PartialConfig) (c : AudioConfig) : AudioConfig where
  highpassFreq := p.highpassFreq.getD c.highpassFreq
  lowpassFreq := p.lowpassFreq.getD c.lowpassFreq
  deesserFreq := p.deesserFreq.getD c.deesserFreq
  deesserAmount := p.deesserAmount.getD c.deesserAmount
  noiseReduction := p.noiseReduction.getD c.noiseReduction
  compressionAmount := p.compressionAmount.getD c.compressionAmount
  loudnormTarget := p.loudnormTarget.getD c.loudnormTarget
  loudnormTp := p.loudnormTp.getD c.loudnormTp
  loudnormLra := p.loudnormLra.getD c.loudnormLra
  bitrate := p.bitrate.getD c.bitrate
  flacCompressionLevel := p.flacCompressionLevel.getD c.flacCompressionLevel

/-- `applyPreset` from the source: look the id up in `PRESETS` and, when
found, spread its partial config over the current config (an unknown id
leaves the configuration unchanged). -/
def applyPreset (presetId : String) (c : AudioConfig) : AudioConfig :=
  match PRESETS.find? (fun p => p.id = presetId) with
  | some p => applyPartial p.config c
  | none => c

/-! ## Number formatting

`jsRound` models JS `Math.round` (round half toward positive infinity);
`toFixed` models `Number.prototype.toFixed` (round to `d` digits, ties away
from zero, always exactly `d` fractional digits); `numStr` models the
default JS stringification used by template interpolation `${x}` for the
terminating decimals that occur in a configuration (integers print with no
point, other terminating decimals print their shortest decimal form). -/

/-- JS `Math.round`: floor of `q + 1/2`. -/
def jsRound (q : ℚ) : ℤ := ⌊q + 1 / 2⌋

/-- Pad a digit string on the left with zeros to length `d`. -/
def padZeros (d : ℕ) (s : String) : String :=
  String.mk (List.replicate (d - s.length) '0') ++ s

/-- JS `toFixed d`: the value scaled by `10 ^ d` and rounded (ties away
from zero), printed with exactly `d` fractional digits. -/
def toFixed (d : ℕ) (q : ℚ) : String :=
  let n : ℕ := (⌊|q| * 10 ^ d + 1 / 2⌋).toNat
  let sign : String := if q < 0 then "-" else ""
  if d = 0 then sign ++ toString n
  else sign ++ (toString (n / 10 ^ d) ++ ("." ++ padZeros d (toString (n % 10 ^ d))))

/-- Default JS stringification of a (terminating-decimal) number. -/
def numStr (q : ℚ) : String :=
  if q.den = 1 then toString q.num
  else
    match (List.range 10).find? (fun k => 10 ^ k % q.den = 0) with
    | some k =>
        let s : ℕ := q.num.natAbs * (10 ^ k / q.den)
        (if q < 0 then "-" else "") ++
          (toString (s / 10 ^ k) ++ ("." ++ padZeros k (toString (s % 10 ^ k))))
    | none => toString q

/-! ## Path resolution and execution modes -/

/-- `resolveShellPath`: replace a leading `~/` by `$HOME/` so the generated
script stays portable; any other path (including the empty one) is
returned unchanged. -/
def resolveShellPath (path : String) : String :=
  if path.startsWith "~/" then "$HOME/" ++ path.drop 2 else path

/-- The closed set of execution modes of `generateFFmpegCommand`
(the TS union of `test-45s`, `test-10s` and `full`). -/
inductive Mode where
  | test45s
  | test10s
  | full
deriving DecidableEq

/-! ## Parameter mapper

The formulas of `generateFFmpegCommand` deriving concrete filter
parameters from the configuration knobs. -/

/-- `nr = Math.round(noiseReduction * 40)`. -/
def nr (config : AudioConfig) : ℤ := jsRound (config.noiseReduction * 40)

/-- `nf = Math.round(-80 + noiseReduction * 40)`. -/
def nf (config : AudioConfig) : ℤ := jsRound (-80 + config.noiseReduction * 40)

/-- Compressor ratio: `2 + compressionAmount * 3`. -/
def ratioOf (config : AudioConfig) : ℚ := 2 + config.compressionAmount * 3

/-- Compressor attack (ms): `20 - compressionAmount * 18`. -/
def attack (config : AudioConfig) : ℚ := 20 - config.compressionAmount * 18

/-- Compressor release (ms): `250 - compressionAmount * 200`. -/
def release (config : AudioConfig) : ℚ := 250 - config.compressionAmount * 200

/-- Compressor makeup gain (dB): `2 + compressionAmount * 2`. -/
def makeup (config : AudioConfig) : ℚ := 2 + config.compressionAmount * 2

/-! ## Filter-stage strings -/

/-- Input format normalization stage. -/
def aformatInput : String :=
  "aformat=sample_fmts=fltp:sample_rates=44100:channel_layouts=stereo"

/-- Click/pop removal stage (fixed parameters). -/
def click : String := "adeclick=w=55:o=75:t=25"

/-- Final collapse to mono. -/
def aformatMono : String := "aformat=channel_layouts=mono"

/-- Highpass stage. -/
def highpass (config : AudioConfig) : String :=
  "highpass=f=" ++ (numStr config.highpassFreq ++ ":poles=2")

/-- Lowpass stage. -/
def lowpass (config : AudioConfig) : String :=
  "lowpass=f=" ++ (numStr config.lowpassFreq ++ ":poles=2")

/-- Noise-reduction stage. -/
def afftdn (config : AudioConfig) : String :=
  "afftdn=nr=" ++ (toString (nr config) ++ (":nf=" ++ (toString (nf config) ++ ":tn=1")))

/-- Compressor stage. -/
def compressor (config : AudioConfig) : String :=
  "acompressor=threshold=-20dB:ratio=" ++
    (toFixed 1 (ratioOf config) ++
      (":attack=" ++
        (toFixed 1 (attack config) ++
          (":release=" ++
            (toFixed 0 (release config) ++ (":makeup=" ++ toFixed 1 (makeup config)))))))

/-- De-esser detection frequency as a fraction of the 22050 Hz Nyquist. -/
def deesserFreqVal (config : AudioConfig) : String :=
  toFixed 3 (config.deesserFreq / 22050)

/-- De-esser stage. -/
def deesser (config : AudioConfig) : String :=
  "deesser=i=" ++
    (toFixed 2 config.deesserAmount ++ (":m=0.5:f=" ++ (deesserFreqVal config ++ ":s=o")))

/-- Limiter stage. -/
def limiter (config : AudioConfig) : String :=
  "alimiter=limit=" ++ (numStr config.loudnormTp ++ "dB:attack=5:release=50")

/-- Single-pass loudness normalization (preview modes). -/
def loudnormPreview (config : AudioConfig) : String :=
  "loudnorm=I=" ++
    (numStr config.loudnormTarget ++
      (":TP=" ++ (numStr config.loudnormTp ++ (":LRA=" ++ numStr config.loudnormLra))))

/-- Measured-mode loudness normalization (pass 2 of the full export). -/
def loudnormFull (config : AudioConfig) : String :=
  "loudnorm=I=" ++
    (numStr config.loudnormTarget ++
      (":TP=" ++
        (numStr config.loudnormTp ++
          (":LRA=" ++
            (numStr config.loudnormLra ++
              ":measured_I=$MEASURED_I:measured_TP=$MEASURED_TP:measured_LRA=$MEASURED_LRA:measured_thresh=$MEASURED_THRESH:offset=$OFFSET:linear=true:print_format=summary")))))

/-- The ten-stage filter chain of the full-export script, in emission
order. -/
def fullFilterChain (config : AudioConfig) : List String :=
  [aformatInput, highpass config, afftdn config, lowpass config, click,
   deesser config, compressor config, loudnormFull config, limiter config,
   aformatMono]

/-- The ten-stage filter chain of the preview scripts, in emission order. -/
def previewFilterChain (config : AudioConfig) : List String :=
  [aformatInput, highpass config, afftdn config, lowpass config, click,
   deesser config, compressor config, loudnormPreview config, limiter config,
   aformatMono]

/-! ## Script assembly

The full-mode template literal of `generateFFmpegCommand`, line by line
(the generated text is the lines joined by newlines; interpolations occur
only inside lines, so the line structure is fixed). -/

/-- The full-mode template literal as a function of its interpolation
slots: the shell-safe input and output paths, the stringified FLAC level,
loudness target, true peak, LRA and bitrate, and the seven
configuration-dependent filter stages. -/
def scriptLines (safeInput safeOutput flacS tgtS tpS lraS brS : String)
    (hpS nrS lpS dsS compS lnS limS : String) : List String :=
  [ "#!/bin/bash",
    "# VOICE ENHANCEMENT STUDIO - AUDIOBOOK MASTERING SCRIPT (FLAC Workflow)",
    "",
    "INPUT=\"" ++ (safeInput ++ "\""),
    "OUTPUT=\"" ++ (safeOutput ++ "\""),
    "TEMP_FLAC=\"/tmp/temp_analysis_$(date +%s).flac\"",
    "",
    "echo \">> 🎧 PHASE 1: ANALYSIS & MEASUREMENT\"",
    "# Extract to temporary FLAC (Lossless, Compressed Level " ++ (flacS ++ ")"),
    "# -map_metadata 0 preserves chapters and tags from source",
    "# -nostdin prevents ffmpeg from consuming the rest of this script as input",
    "echo \"   ...extracting to intermediate FLAC...\"",
    "ffmpeg -nostdin -v warning -i \"$INPUT\" -vn -acodec flac -compression_level " ++
      (flacS ++ " -ar 44100 -map_metadata 0 \"$TEMP_FLAC\" -y"),
    "",
    "# Analyze loudness and noise floor from FLAC",
    "echo \"   ...measuring dynamics and spectrum...\"",
    "LOUDNESS_DATA=$(ffmpeg -nostdin -i \"$TEMP_FLAC\" -af loudnorm=I=" ++
      (tgtS ++
        (":TP=" ++
          (tpS ++
            (":LRA=" ++
              (lraS ++
                ":print_format=json -f null - 2>&1 | grep -A 12 \"loudnorm\" | tail -n 12)"))))),
    "",
    "# Extract measured values",
    "# Uses escaped newline for tr to prevent multiline syntax errors in bash",
    "MEASURED_I=$(echo \"$LOUDNESS_DATA\" | grep \x27\"input_i\"\x27 | cut -d : -f 2 | tr -d \x27\", \\n\x27)",
    "MEASURED_TP=$(echo \"$LOUDNESS_DATA\" | grep \x27\"input_tp\"\x27 | cut -d : -f 2 | tr -d \x27\", \\n\x27)",
    "MEASURED_LRA=$(echo \"$LOUDNESS_DATA\" | grep \x27\"input_lra\"\x27 | cut -d : -f 2 | tr -d \x27\", \\n\x27)",
    "MEASURED_THRESH=$(echo \"$LOUDNESS_DATA\" | grep \x27\"input_thresh\"\x27 | cut -d : -f 2 | tr -d \x27\", \\n\x27)",
    "OFFSET=$(echo \"$LOUDNESS_DATA\" | grep \x27\"target_offset\"\x27 | cut -d : -f 2 | tr -d \x27\", \\n\x27)",
    "",
    "echo \"   ...Captured: I=$MEASURED_I TP=$MEASURED_TP LRA=$MEASURED_LRA\"",
    "",
    "# Fallback values in case analysis failed (prevents syntax errors in next step)",
    ": $\x7bMEASURED_I:=" ++ (tgtS ++ "\x7d"),
    ": $\x7bMEASURED_TP:=" ++ (tpS ++ "\x7d"),
    ": $\x7bMEASURED_LRA:=" ++ (lraS ++ "\x7d"),
    ": $\x7bMEASURED_THRESH:=-70.0\x7d",
    ": $\x7bOFFSET:=0.0\x7d",
    "",
    "echo \">> 🎹 PHASE 2: PRECISION PROCESSING\"",
    "# Process from the intermediate FLAC",
    "# Map metadata from it to ensure chapters are preserved",
    "ffmpeg -nostdin -i \"$TEMP_FLAC\" -filter_complex \"\\",
    "[0:a]" ++ (aformatInput ++ ",\\"),
    hpS ++ ",\\",
    nrS ++ ",\\",
    lpS ++ ",\\",
    click ++ ",\\",
    dsS ++ ",\\",
    compS ++ ",\\",
    lnS ++ ",\\",
    limS ++ ",\\",
    aformatMono ++ "[out]\" \\",
    "-map \"[out]\" \\",
    "-vn -map_metadata 0 \\",
    "-c:a aac -b:a " ++ (brS ++ "k -movflags +faststart \\"),
    "\"$OUTPUT\"",
    "",
    "# Cleanup",
    "rm \"$TEMP_FLAC\"",
    "echo \">> ✅ PROCESSING COMPLETE: $OUTPUT\"",
    "" ]

/-- The lines of the full two-pass mastering script for a configuration
and resolved paths. -/
def fullScriptLines (config : AudioConfig) (inputPath : String)
    (outputFilePath : Option String) : List String :=
  let inputFile := if inputPath = "" then "input.m4b" else inputPath
  let safeInput := resolveShellPath inputFile
  let outputName :=
    match outputFilePath with
    | some s => if s = "" then "processed_audiobook.m4b" else s
    | none => "processed_audiobook.m4b"
  let safeOutput := resolveShellPath outputName
  scriptLines safeInput safeOutput (numStr config.flacCompressionLevel)
    (numStr config.loudnormTarget) (numStr config.loudnormTp)
    (numStr config.loudnormLra) (numStr config.bitrate)
    (highpass config) (afftdn config) (lowpass config) (deesser config)
    (compressor config) (loudnormFull config) (limiter config)

/-- The lines of a single-pass preview script (`duration` is 45 or 10,
`suffix` the mode-specific default output suffix). -/
def previewLines (config : AudioConfig) (inputPath : String) (duration : ℕ)
    (suffix : String) (outputFilePath : Option String) : List String :=
  let inputFile := if inputPath = "" then "input.m4b" else inputPath
  let safeInput := resolveShellPath inputFile
  let outputName :=
    match outputFilePath with
    | some s => if s = "" then "preview" ++ suffix else s
    | none => "preview" ++ suffix
  let safeOutput := resolveShellPath outputName
  [ "ffmpeg -nostdin -ss 00:05:00 -i \"" ++
      (safeInput ++ ("\" -t " ++ (toString duration ++ " \\"))),
    "-filter_complex \"\\",
    "[0:a]" ++ (aformatInput ++ ",\\"),
    highpass config ++
      ("," ++
        (afftdn config ++
          ("," ++
            (lowpass config ++
              ("," ++
                (click ++
                  ("," ++
                    (deesser config ++ ("," ++ (compressor config ++ ",\\")))))))))),
    loudnormPreview config ++ ",\\",
    limiter config ++ ",aformat=channel_layouts=mono\" \\",
    "-vn -c:a aac -b:a " ++ (numStr config.bitrate ++ ("k \"" ++ (safeOutput ++ "\""))) ]

/-- `generateFFmpegCommand` from the source: the full textual plan for a
configuration, input path, execution mode and optional output path. -/
def generateFFmpegCommand (config : AudioConfig) (inputPath : String)
    (mode : Mode) (outputFilePath : Option String) : String :=
  match mode with
  | .full => String.intercalate "\n" (fullScriptLines config inputPath outputFilePath)
  | .test45s =>
      String.intercalate "\n" (previewLines config inputPath 45 "-preview-45s.m4b" outputFilePath)
  | .test10s =>
      String.intercalate "\n" (previewLines config inputPath 10 "-preview-10s.m4b" outputFilePath)

/-! ## Signal analyzer

The analysis loop of `runClientAnalysis`: the decoded mono buffer is cut
into 4096-sample windows (the final partial window keeps its own length),
per-window mean squares and the global mean square and absolute peak are
accumulated, the per-window values are sorted ascending and the entry at
index `floor(windowCount * 0.1)` is picked as the noise-floor estimate.

The source collects the per-window RMS values `sqrt(windowSum / count)`
and sorts those; since `sqrt` is strictly monotone on the nonnegative
mean squares, sorting the (rational) mean squares and taking the square
root of the selected entry picks the same window, which keeps the
executable core inside `ℚ`.  The decibel conversions `20 * log10`, the
JS falsy-fallback (`rms || 1e-8`, `peak || 1e-8`, `noise || 1e-7`; a
zero — or, for an empty buffer, NaN — triggers the fallback) and the
final `parseFloat(x.toFixed(1))` display rounding are applied on top, in
`ℝ`. -/

/-- Sum of squares of a sample list. -/
def sumSq (l : List ℚ) : ℚ := (l.map fun v => v * v).sum

/-- Cut a buffer into consecutive 4096-sample windows; the final partial
window is kept as-is.  (`fuel` bounds the recursion by the buffer length.) -/
def chunksF : ℕ → List ℚ → List (List ℚ)
  | 0, _ => []
  | _, [] => []
  | fuel + 1, a :: rest => (a :: rest).take 4096 :: chunksF fuel ((a :: rest).drop 4096)

/-- The 4096-sample windows of a buffer. -/
def chunks (l : List ℚ) : List (List ℚ) := chunksF l.length l

/-- Mean square of one window (`windowSum / count`). -/
def meanSq (w : List ℚ) : ℚ := sumSq w / (w.length : ℚ)

/-- Per-window mean squares, in buffer order. -/
def msWindows (samples : List ℚ) : List ℚ := (chunks samples).map meanSq

/-- Running absolute-value maximum over the whole buffer. -/
def peakAmp (samples : List ℚ) : ℚ := samples.foldl (fun p v => max p |v|) 0

/-- Global mean square (`sumSquares / rawData.length`; for the empty
buffer the JS value is NaN, which like our `0` is falsy and triggers the
epsilon fallback downstream). -/
def msGlobal (samples : List ℚ) : ℚ := sumSq samples / (samples.length : ℚ)

/-- The per-window mean squares sorted ascending (the source sorts the
per-window RMS values with `sort((a, b) => a - b)`; same order). -/
def sortedMS (samples : List ℚ) : List ℚ :=
  (msWindows samples).insertionSort (fun a b => a ≤ b)

/-- The 10th-percentile index `Math.floor(windowCount * 0.1)`. -/
def noiseIdx (samples : List ℚ) : ℕ :=
  (⌊((msWindows samples).length : ℚ) * (1 / 10)⌋).toNat

/-- The selected percentile window mean square (`none` models the
out-of-bounds `undefined` of `rmsWindows[i]` on an empty window list). -/
def selMS (samples : List ℚ) : Option ℚ := (sortedMS samples)[noiseIdx samples]?

/-- `20 * log10`. -/
noncomputable def db20 (x : ℝ) : ℝ := 20 * Real.logb 10 x

/-- `parseFloat(x.toFixed(1))`: round to one decimal place. -/
noncomputable def roundTo1 (x : ℝ) : ℝ := (⌊x * 10 + 1 / 2⌋ : ℤ) / 10

/-- The `estLufs` output of the analyzer:
`parseFloat((20 * log10(rms || 1e-8)).toFixed(1))`. -/
noncomputable def estLufsVal (samples : List ℚ) : ℝ :=
  roundTo1 (db20 (if msGlobal samples = 0 then 1 / 100000000
                  else Real.sqrt (msGlobal samples)))

/-- The `peak` output of the analyzer:
`parseFloat((20 * log10(peak || 1e-8)).toFixed(1))`. -/
noncomputable def peakVal (samples : List ℚ) : ℝ :=
  roundTo1 (db20 (if peakAmp samples = 0 then 1 / 100000000
                  else (peakAmp samples : ℝ)))

/-- The `noiseFloor` output of the analyzer:
`parseFloat((20 * log10(rmsWindows[idx] || 1e-7)).toFixed(1))`. -/
noncomputable def noiseFloorVal (samples : List ℚ) : ℝ :=
  roundTo1 (db20 (match selMS samples with
                  | none => 1 / 10000000
                  | some q => if q = 0 then 1 / 10000000 else Real.sqrt (q : ℝ)))

/-! ## Claim-side predicates -/

/-- The frame property of applying a partial override: every field listed
in the bundle takes the listed value, every unlisted field keeps its
previous value. -/
def preservesUnlisted (p : PartialConfig) (oldC newC : AudioConfig) : Prop :=
  (∀ v, p.highpassFreq = some v → newC.highpassFreq = v) ∧
  (p.highpassFreq = none → newC.highpassFreq = oldC.highpassFreq) ∧
  (∀ v, p.lowpassFreq = some v → newC.lowpassFreq = v) ∧
  (p.lowpassFreq = none → newC.lowpassFreq = oldC.lowpassFreq) ∧
  (∀ v, p.deesserFreq = some v → newC.deesserFreq = v) ∧
  (p.deesserFreq = none → newC.deesserFreq = oldC.deesserFreq) ∧
  (∀ v, p.deesserAmount = some v → newC.deesserAmount = v) ∧
  (p.deesserAmount = none → newC.deesserAmount = oldC.deesserAmount) ∧
  (∀ v, p.noiseReduction = some v → newC.noiseReduction = v) ∧
  (p.noiseReduction = none → newC.noiseReduction = oldC.noiseReduction) ∧
  (∀ v, p.compressionAmount = some v → newC.compressionAmount = v) ∧
  (p.compressionAmount = none → newC.compressionAmount = oldC.compressionAmount) ∧
  (∀ v, p.loudnormTarget = some v → newC.loudnormTarget = v) ∧
  (p.loudnormTarget = none → newC.loudnormTarget = oldC.loudnormTarget) ∧
  (∀ v, p.loudnormTp = some v → newC.loudnormTp = v) ∧
  (p.loudnormTp = none → newC.loudnormTp = oldC.loudnormTp) ∧
  (∀ v, p.loudnormLra = some v → newC.loudnormLra = v) ∧
  (p.loudnormLra = none → newC.loudnormLra = oldC.loudnormLra) ∧
  (∀ v, p.bitrate = some v → newC.bitrate = v) ∧
  (p.bitrate = none → newC.bitrate = oldC.bitrate) ∧
  (∀ v, p.flacCompressionLevel = some v → newC.flacCompressionLevel = v) ∧
  (p.flacCompressionLevel = none → newC.flacCompressionLevel = oldC.flacCompressionLevel)

/-- A string of the decimal shape `⟨integer part⟩.⟨exactly one digit⟩`. -/
def oneDecimalString (s : String) : Prop :=
  ∃ ip fp, s = ip ++ ("." ++ fp) ∧ fp.length = 1

/-- A string that is the plain decimal rendering of a natural number
(no decimal point). -/
def natString (s : String) : Prop := ∃ k : ℕ, s = toString k

/-! ## Helper lemmas -/

section
attribute [local semireducible] Rat.mul Rat.inv Rat.add Rat.sub Rat.ofScientific

theorem head_append (p x : String) (c : Char) (h : p.data.head? = some c) :
    (p ++ x).data.head? = some c := by
  rw [String.data_append]
  cases hp : p.data with
  | nil => rw [hp] at h; exact absurd h (by simp)
  | cons a l => rw [hp] at h; simpa using h

theorem ne_of_head_ne (t s : String) (c : Char) (hs : s.data.head? = some c)
    (h : t.data.head? ≠ some c) : s ≠ t :=
  fun e => h (e ▸ hs)

theorem append_split (a b c x : String) (h : a = b ++ c) :
    a ++ x = b ++ (c ++ x) := by
  rw [h, String.append_assoc]

theorem highpass_head (config : AudioConfig) :
    (highpass config).data.head? = some 'h' :=
  head_append _ _ _ (by decide)

theorem afftdn_head (config : AudioConfig) :
    (afftdn config).data.head? = some 'a' :=
  head_append _ _ _ (by decide)

theorem lowpass_head (config : AudioConfig) :
    (lowpass config).data.head? = some 'l' :=
  head_append _ _ _ (by decide)

theorem deesser_head (config : AudioConfig) :
    (deesser config).data.head? = some 'd' :=
  head_append _ _ _ (by decide)

theorem compressor_head (config : AudioConfig) :
    (compressor config).data.head? = some 'a' :=
  head_append _ _ _ (by decide)

theorem loudnormFull_head (config : AudioConfig) :
    (loudnormFull config).data.head? = some 'l' :=
  head_append _ _ _ (by decide)

theorem limiter_head (config : AudioConfig) :
    (limiter config).data.head? = some 'a' :=
  head_append _ _ _ (by decide)

/-! ## Claim C6: compressor parameter formulas -/

/-- Claim C6: for every `AudioConfig` with `compressionAmount` in `[0, 1]`,
the derived compressor parameters are `ratio = 2 + c * 3`,
`attack = 20 - c * 18` ms, `release = 250 - c * 200` ms and
`makeup = 2 + c * 2` dB, each within its documented range, and at `c = 0`
they are `2.0`, `20.0`, `250` and `2.0`. -/
theorem compressor_parameter_formulas (cfg : AudioConfig)
    (h0 : 0 ≤ cfg.compressionAmount) (h1 : cfg.compressionAmount ≤ 1) :
    (ratioOf cfg = 2 + cfg.compressionAmount * 3 ∧
      attack cfg = 20 - cfg.compressionAmount * 18 ∧
      release cfg = 250 - cfg.compressionAmount * 200 ∧
      makeup cfg = 2 + cfg.compressionAmount * 2) ∧
    (2 ≤ ratioOf cfg ∧ ratioOf cfg ≤ 5) ∧
    (2 ≤ attack cfg ∧ attack cfg ≤ 20) ∧
    (50 ≤ release cfg ∧ release cfg ≤ 250) ∧
    (2 ≤ makeup cfg ∧ makeup cfg ≤ 4) ∧
    (cfg.compressionAmount = 0 →
      ratioOf cfg = 2 ∧ attack cfg = 20 ∧ release cfg = 250 ∧ makeup cfg = 2) := by
  refine ⟨⟨rfl, rfl, rfl, rfl⟩, ⟨?_, ?_⟩, ⟨?_, ?_⟩, ⟨?_, ?_⟩, ⟨?_, ?_⟩, fun hc => ?_⟩ <;>
    simp only [ratioOf, attack, release, makeup]
  · linarith
  · linarith
  · linarith
  · linarith
  · linarith
  · linarith
  · linarith
  · linarith
  · rw [hc]; norm_num

/-- Witness for `compressor_parameter_formulas` at the `c = 0` scenario. -/
theorem compressor_parameter_formulas_witness :
    (0 : ℚ) ≤ ({ DEFAULT_CONFIG with compressionAmount := 0 } : AudioConfig).compressionAmount ∧
    ({ DEFAULT_CONFIG with compressionAmount := 0 } : AudioConfig).compressionAmount ≤ 1 ∧
    (ratioOf { DEFAULT_CONFIG with compressionAmount := 0 } = 2 ∧
      attack { DEFAULT_CONFIG with compressionAmount := 0 } = 20 ∧
      release { DEFAULT_CONFIG with compressionAmount := 0 } = 250 ∧
      makeup { DEFAULT_CONFIG with compressionAmount := 0 } = 2) :=
  ⟨by norm_num, by norm_num,
    (compressor_parameter_formulas { DEFAULT_CONFIG with compressionAmount := 0 }
      (by norm_num) (by norm_num)).2.2.2.2.2 rfl⟩

/-! ## Claim C7: monotonicity in `compressionAmount` -/

/-- Claim C7: with all other fields fixed, a strictly larger
`compressionAmount` in `[0, 1]` yields strictly larger `ratio` and
`makeup` and strictly smaller `attack`. -/
theorem compressor_monotone (cfg : AudioConfig) (c1 c2 : ℚ)
    (h0 : 0 ≤ c1) (h12 : c1 < c2) (h1 : c2 ≤ 1) :
    ratioOf { cfg with compressionAmount := c1 } <
      ratioOf { cfg with compressionAmount := c2 } ∧
    makeup { cfg with compressionAmount := c1 } <
      makeup { cfg with compressionAmount := c2 } ∧
    attack { cfg with compressionAmount := c2 } <
      attack { cfg with compressionAmount := c1 } := by
  simp only [ratioOf, makeup, attack]
  exact ⟨by linarith, by linarith, by linarith⟩

/-- Witness for `compressor_monotone` at `c1 = 0.2 < c2 = 0.8`. -/
theorem compressor_monotone_witness :
    ((0 : ℚ) ≤ 0.2 ∧ (0.2 : ℚ) < 0.8 ∧ (0.8 : ℚ) ≤ 1) ∧
    (ratioOf { DEFAULT_CONFIG with compressionAmount := 0.2 } <
        ratioOf { DEFAULT_CONFIG with compressionAmount := 0.8 } ∧
      makeup { DEFAULT_CONFIG with compressionAmount := 0.2 } <
        makeup { DEFAULT_CONFIG with compressionAmount := 0.8 } ∧
      attack { DEFAULT_CONFIG with compressionAmount := 0.8 } <
        attack { DEFAULT_CONFIG with compressionAmount := 0.2 }) :=
  ⟨⟨by norm_num, by norm_num, by norm_num⟩,
    compressor_monotone DEFAULT_CONFIG 0.2 0.8 (by norm_num) (by norm_num) (by norm_num)⟩

/-! ## Claim C9: the closed mode set -/

/-- Claim C9: the execution-mode set of the planner is closed (exactly the two
previews and the full two-pass export), and for every mode in the set the
planner succeeds, producing the plan of that mode; there is no mode outside
the set, so no `InvalidMode` failure can occur. -/
theorem mode_set_closed (cfg : AudioConfig) (i : String) (o : Option String) (m : Mode) :
    (m = Mode.test45s ∨ m = Mode.test10s ∨ m = Mode.full) ∧
    generateFFmpegCommand cfg i Mode.full o =
      String.intercalate "\n" (fullScriptLines cfg i o) ∧
    generateFFmpegCommand cfg i Mode.test45s o =
      String.intercalate "\n" (previewLines cfg i 45 "-preview-45s.m4b" o) ∧
    generateFFmpegCommand cfg i Mode.test10s o =
      String.intercalate "\n" (previewLines cfg i 10 "-preview-10s.m4b" o) := by
  refine ⟨?_, rfl, rfl, rfl⟩
  cases m
  · exact Or.inl rfl
  · exact Or.inr (Or.inl rfl)
  · exact Or.inr (Or.inr rfl)

/-! ## Claim C10: presets are partial overrides -/

/-- Claim C10: applying any of the five presets overrides exactly the
fields listed in the partial config of that preset and leaves every other
field of the current configuration unchanged. -/
theorem preset_partial_override (cfg : AudioConfig) (p : AudioPreset)
    (hp : p ∈ PRESETS) :
    preservesUnlisted p.config cfg (applyPreset p.id cfg) := by
  fin_cases hp <;>
    simp [applyPreset, PRESETS, preservesUnlisted, applyPartial, List.find?,
      acxPreset, warmPreset, clearPreset, homePreset, radioPreset]

/-- Witness for `preset_partial_override`: the ACX preset applied to the
default configuration. -/
theorem preset_partial_override_witness :
    acxPreset ∈ PRESETS ∧
    preservesUnlisted acxPreset.config DEFAULT_CONFIG
      (applyPreset acxPreset.id DEFAULT_CONFIG) :=
  ⟨List.mem_cons_self _ _,
    preset_partial_override DEFAULT_CONFIG acxPreset (List.mem_cons_self _ _)⟩

/-! ## Claim C1: fixed ten-stage filter order -/

/-- Claim C1: in the preview plans and in the full-export plan alike, the
emitted filter chain has exactly ten stages in the fixed order
format normalization (`aformat`), `highpass`, noise reduction (`afftdn`),
`lowpass`, click/pop removal (`adeclick`), `deesser`, compressor
(`acompressor`), loudness normalization (`loudnorm`), limiter
(`alimiter`), collapse to mono (`aformat`); the stages appear in this
order in the generated script lines of both families. -/
theorem filter_chain_order (cfg : AudioConfig) (i : String) (o : Option String) :
    (fullFilterChain cfg).length = 10 ∧
    (previewFilterChain cfg).length = 10 ∧
    ((fullScriptLines cfg i o).drop 39).take 10 =
      ["[0:a]" ++ (aformatInput ++ ",\\"), highpass cfg ++ ",\\",
       afftdn cfg ++ ",\\", lowpass cfg ++ ",\\", click ++ ",\\",
       deesser cfg ++ ",\\", compressor cfg ++ ",\\",
       loudnormFull cfg ++ ",\\", limiter cfg ++ ",\\",
       aformatMono ++ "[out]\" \\"] ∧
    ((previewLines cfg i 45 "-preview-45s.m4b" o).drop 2).take 4 =
      ["[0:a]" ++ (aformatInput ++ ",\\"),
       highpass cfg ++
         ("," ++
           (afftdn cfg ++
             ("," ++
               (lowpass cfg ++
                 ("," ++
                   (click ++
                     ("," ++
                       (deesser cfg ++ ("," ++ (compressor cfg ++ ",\\")))))))))),
       loudnormPreview cfg ++ ",\\",
       limiter cfg ++ ",aformat=channel_layouts=mono\" \\"] ∧
    ((previewLines cfg i 10 "-preview-10s.m4b" o).drop 2).take 4 =
      ["[0:a]" ++ (aformatInput ++ ",\\"),
       highpass cfg ++
         ("," ++
           (afftdn cfg ++
             ("," ++
               (lowpass cfg ++
                 ("," ++
                   (click ++
                     ("," ++
                       (deesser cfg ++ ("," ++ (compressor cfg ++ ",\\")))))))))),
       loudnormPreview cfg ++ ",\\",
       limiter cfg ++ ",aformat=channel_layouts=mono\" \\"] ∧
    ∃ r₁ r₂ r₃ r₄ r₅ r₆ r₇ r₈ r₉ r₁₀ s₈,
      fullFilterChain cfg =
        ["aformat=" ++ r₁, "highpass=" ++ r₂, "afftdn=" ++ r₃,
         "lowpass=" ++ r₄, "adeclick=" ++ r₅, "deesser=" ++ r₆,
         "acompressor=" ++ r₇, "loudnorm=" ++ r₈, "alimiter=" ++ r₉,
         "aformat=" ++ r₁₀] ∧
      previewFilterChain cfg =
        ["aformat=" ++ r₁, "highpass=" ++ r₂, "afftdn=" ++ r₃,
         "lowpass=" ++ r₄, "adeclick=" ++ r₅, "deesser=" ++ r₆,
         "acompressor=" ++ r₇, "loudnorm=" ++ s₈, "alimiter=" ++ r₉,
         "aformat=" ++ r₁₀] := by
  have haf : aformatInput =
      "aformat=" ++ "sample_fmts=fltp:sample_rates=44100:channel_layouts=stereo" := by decide
  have hmono : aformatMono = "aformat=" ++ "channel_layouts=mono" := by decide
  have hcl : click = "adeclick=" ++ "w=55:o=75:t=25" := by decide
  have hhp : highpass cfg =
      "highpass=" ++ ("f=" ++ (numStr cfg.highpassFreq ++ ":poles=2")) :=
    append_split _ _ _ _ (by decide)
  have hnr : afftdn cfg =
      "afftdn=" ++
        ("nr=" ++ (toString (nr cfg) ++ (":nf=" ++ (toString (nf cfg) ++ ":tn=1")))) :=
    append_split _ _ _ _ (by decide)
  have hlp : lowpass cfg =
      "lowpass=" ++ ("f=" ++ (numStr cfg.lowpassFreq ++ ":poles=2")) :=
    append_split _ _ _ _ (by decide)
  have hds : deesser cfg =
      "deesser=" ++
        ("i=" ++
          (toFixed 2 cfg.deesserAmount ++ (":m=0.5:f=" ++ (deesserFreqVal cfg ++ ":s=o")))) :=
    append_split _ _ _ _ (by decide)
  have hco : compressor cfg =
      "acompressor=" ++
        ("threshold=-20dB:ratio=" ++
          (toFixed 1 (ratioOf cfg) ++
            (":attack=" ++
              (toFixed 1 (attack cfg) ++
                (":release=" ++
                  (toFixed 0 (release cfg) ++ (":makeup=" ++ toFixed 1 (makeup cfg)))))))) :=
    append_split _ _ _ _ (by decide)
  have hlnF : loudnormFull cfg =
      "loudnorm=" ++
        ("I=" ++
          (numStr cfg.loudnormTarget ++
            (":TP=" ++
              (numStr cfg.loudnormTp ++
                (":LRA=" ++
                  (numStr cfg.loudnormLra ++
                    ":measured_I=$MEASURED_I:measured_TP=$MEASURED_TP:measured_LRA=$MEASURED_LRA:measured_thresh=$MEASURED_THRESH:offset=$OFFSET:linear=true:print_format=summary")))))) :=
    append_split _ _ _ _ (by decide)
  have hlnP : loudnormPreview cfg =
      "loudnorm=" ++
        ("I=" ++
          (numStr cfg.loudnormTarget ++
            (":TP=" ++ (numStr cfg.loudnormTp ++ (":LRA=" ++ numStr cfg.loudnormLra))))) :=
    append_split _ _ _ _ (by decide)
  have hlim : limiter cfg =
      "alimiter=" ++ ("limit=" ++ (numStr cfg.loudnormTp ++ "dB:attack=5:release=50")) :=
    append_split _ _ _ _ (by decide)
  refine ⟨rfl, rfl, rfl, rfl, rfl,
    "sample_fmts=fltp:sample_rates=44100:channel_layouts=stereo",
    "f=" ++ (numStr cfg.highpassFreq ++ ":poles=2"),
    "nr=" ++ (toString (nr cfg) ++ (":nf=" ++ (toString (nf cfg) ++ ":tn=1"))),
    "f=" ++ (numStr cfg.lowpassFreq ++ ":poles=2"),
    "w=55:o=75:t=25",
    "i=" ++ (toFixed 2 cfg.deesserAmount ++ (":m=0.5:f=" ++ (deesserFreqVal cfg ++ ":s=o"))),
    "threshold=-20dB:ratio=" ++
      (toFixed 1 (ratioOf cfg) ++
        (":attack=" ++
          (toFixed 1 (attack cfg) ++
            (":release=" ++
              (toFixed 0 (release cfg) ++ (":makeup=" ++ toFixed 1 (makeup cfg))))))),
    "I=" ++
      (numStr cfg.loudnormTarget ++
        (":TP=" ++
          (numStr cfg.loudnormTp ++
            (":LRA=" ++
              (numStr cfg.loudnormLra ++
                ":measured_I=$MEASURED_I:measured_TP=$MEASURED_TP:measured_LRA=$MEASURED_LRA:measured_thresh=$MEASURED_THRESH:offset=$OFFSET:linear=true:print_format=summary"))))),
    "limit=" ++ (numStr cfg.loudnormTp ++ "dB:attack=5:release=50"),
    "channel_layouts=mono",
    "I=" ++
      (numStr cfg.loudnormTarget ++
        (":TP=" ++ (numStr cfg.loudnormTp ++ (":LRA=" ++ numStr cfg.loudnormLra)))),
    ?_, ?_⟩
  · simp only [fullFilterChain]
    rw [haf, hmono, hcl, hhp, hnr, hlp, hds, hco, hlnF, hlim]
  · simp only [previewFilterChain]
    rw [haf, hmono, hcl, hhp, hnr, hlp, hds, hco, hlnP, hlim]

/-! ## Claim C8: display precision of derived parameters -/

theorem padZeros_one_digit (m : ℕ) (h : m < 10) :
    (padZeros 1 (toString m)).length = 1 := by
  interval_cases m <;> rfl

theorem toFixed_one_decimal (q : ℚ) (h : 0 ≤ q) :
    oneDecimalString (toFixed 1 q) := by
  refine ⟨toString ((⌊|q| * 10 ^ 1 + 1 / 2⌋).toNat / 10 ^ 1),
    padZeros 1 (toString ((⌊|q| * 10 ^ 1 + 1 / 2⌋).toNat % 10 ^ 1)), ?_, ?_⟩
  · simp only [toFixed]
    rw [if_neg (by norm_num : ¬(1 : ℕ) = 0), if_neg (not_lt.mpr h)]
    rfl
  · refine padZeros_one_digit _ ?_
    have := Nat.mod_lt (⌊|q| * 10 ^ 1 + 1 / 2⌋).toNat (show 0 < 10 ^ 1 by norm_num)
    simpa using this

theorem toFixed_zero_nat (q : ℚ) (h : 0 ≤ q) : natString (toFixed 0 q) := by
  refine ⟨(⌊|q| * 10 ^ 0 + 1 / 2⌋).toNat, ?_⟩
  simp only [toFixed]
  rw [if_pos trivial, if_neg (not_lt.mpr h)]
  rfl

/-- Claim C8 counterexample: at `DEFAULT_CONFIG` (compression 0.3) the
release value 190 ms is rendered `release=190` by `toFixed(0)` — an
integer, not the claimed one-decimal rendering `190.0`. -/
theorem release_precision_counterexample :
    compressor DEFAULT_CONFIG =
      "acompressor=threshold=-20dB:ratio=2.9:attack=14.6:release=190:makeup=2.6" ∧
    toFixed 0 (release DEFAULT_CONFIG) = "190" ∧
    toFixed 1 (release DEFAULT_CONFIG) = "190.0" ∧
    ¬ oneDecimalString (toFixed 0 (release DEFAULT_CONFIG)) := by
  refine ⟨by decide, by decide, by decide, ?_⟩
  rintro ⟨ip, fp, he, -⟩
  have h190 : toFixed 0 (release DEFAULT_CONFIG) = "190" := by decide
  rw [h190] at he
  have hdot : '.' ∈ ("190" : String).data := by
    rw [he, String.data_append, String.data_append]
    exact List.mem_append_right _ (List.mem_append_left _ (by decide))
  exact absurd hdot (by decide)

/-- Claim C8 amended: in the generated command text the compressor ratio,
attack and makeup are rendered with exactly one decimal (`toFixed(1)`),
the release with zero decimals (`toFixed(0)`, an integer string), and the
noise-reduction pair as the integers `Math.round` produces; identical
configurations therefore yield identical command text. -/
theorem parameter_display_precision (cfg : AudioConfig)
    (h0 : 0 ≤ cfg.compressionAmount) (h1 : cfg.compressionAmount ≤ 1) :
    compressor cfg =
      "acompressor=threshold=-20dB:ratio=" ++
        (toFixed 1 (ratioOf cfg) ++
          (":attack=" ++
            (toFixed 1 (attack cfg) ++
              (":release=" ++
                (toFixed 0 (release cfg) ++ (":makeup=" ++ toFixed 1 (makeup cfg))))))) ∧
    oneDecimalString (toFixed 1 (ratioOf cfg)) ∧
    oneDecimalString (toFixed 1 (attack cfg)) ∧
    oneDecimalString (toFixed 1 (makeup cfg)) ∧
    natString (toFixed 0 (release cfg)) ∧
    afftdn cfg =
      "afftdn=nr=" ++ (toString (nr cfg) ++ (":nf=" ++ (toString (nf cfg) ++ ":tn=1"))) := by
  refine ⟨rfl,
    toFixed_one_decimal _ (by rw [ratioOf]; linarith),
    toFixed_one_decimal _ (by rw [attack]; linarith),
    toFixed_one_decimal _ (by rw [makeup]; linarith),
    toFixed_zero_nat _ (by rw [release]; linarith), rfl⟩

/-- Witness for `parameter_display_precision` at `DEFAULT_CONFIG`. -/
theorem parameter_display_precision_witness :
    ((0 : ℚ) ≤ DEFAULT_CONFIG.compressionAmount ∧
      DEFAULT_CONFIG.compressionAmount ≤ 1) ∧
    (oneDecimalString (toFixed 1 (ratioOf DEFAULT_CONFIG)) ∧
      oneDecimalString (toFixed 1 (attack DEFAULT_CONFIG)) ∧
      oneDecimalString (toFixed 1 (makeup DEFAULT_CONFIG)) ∧
      natString (toFixed 0 (release DEFAULT_CONFIG))) :=
  ⟨⟨by norm_num [DEFAULT_CONFIG], by norm_num [DEFAULT_CONFIG]⟩,
    ⟨(parameter_display_precision DEFAULT_CONFIG (by norm_num [DEFAULT_CONFIG])
        (by norm_num [DEFAULT_CONFIG])).2.1,
      (parameter_display_precision DEFAULT_CONFIG (by norm_num [DEFAULT_CONFIG])
        (by norm_num [DEFAULT_CONFIG])).2.2.1,
      (parameter_display_precision DEFAULT_CONFIG (by norm_num [DEFAULT_CONFIG])
        (by norm_num [DEFAULT_CONFIG])).2.2.2.1,
      (parameter_display_precision DEFAULT_CONFIG (by norm_num [DEFAULT_CONFIG])
        (by norm_num [DEFAULT_CONFIG])).2.2.2.2.1⟩⟩

/-! ## Analyzer helper lemmas -/

theorem roundTo1_intCast (z : ℤ) : roundTo1 (z : ℝ) = z := by
  have hf : ⌊(z : ℝ) * 10 + 1 / 2⌋ = 10 * z := by
    rw [Int.floor_eq_iff]
    constructor
    · push_cast; linarith
    · push_cast; linarith
  simp only [roundTo1, hf]
  push_cast
  ring

theorem db20_one_div_pow10 (k : ℕ) : db20 (1 / (10 : ℝ) ^ k) = -(20 * k) := by
  simp only [db20, one_div, Real.logb_inv, Real.logb_pow,
    Real.logb_self_eq_one (by norm_num : (1 : ℝ) < 10)]
  ring

theorem val_neg160 : roundTo1 (db20 ((1 : ℝ) / 100000000)) = -160 := by
  have h8 : ((100000000 : ℝ)) = 10 ^ (8 : ℕ) := by norm_num
  rw [h8, db20_one_div_pow10]
  have := roundTo1_intCast (-160)
  push_cast at this
  rw [show (-(20 * ((8 : ℕ) : ℝ))) = -160 by norm_num]
  exact this

theorem val_neg140 : roundTo1 (db20 ((1 : ℝ) / 10000000)) = -140 := by
  have h7 : ((10000000 : ℝ)) = 10 ^ (7 : ℕ) := by norm_num
  rw [h7, db20_one_div_pow10]
  have := roundTo1_intCast (-140)
  push_cast at this
  rw [show (-(20 * ((7 : ℕ) : ℝ))) = -140 by norm_num]
  exact this

theorem sumSq_eq_zero (l : List ℚ) (h : ∀ x ∈ l, x = 0) : sumSq l = 0 := by
  rw [sumSq]
  apply List.sum_eq_zero
  intro y hy
  rcases List.mem_map.mp hy with ⟨x, hx, rfl⟩
  rw [h x hx]
  ring

theorem chunksF_subset (fuel : ℕ) :
    ∀ (l : List ℚ), ∀ c ∈ chunksF fuel l, ∀ x ∈ c, x ∈ l := by
  induction fuel with
  | zero => intro l c hc; simp [chunksF] at hc
  | succ k ih =>
      intro l c hc x hx
      cases l with
      | nil => simp [chunksF] at hc
      | cons a rest =>
          rw [chunksF] at hc
          rcases List.mem_cons.mp hc with h | h
          · exact List.take_subset _ _ (h ▸ hx)
          · exact List.drop_subset _ _ (ih _ c h x hx)

theorem chunksF_ne_nil (fuel : ℕ) (a : ℚ) (rest : List ℚ) :
    chunksF (fuel + 1) (a :: rest) ≠ [] := by
  rw [chunksF]
  exact List.cons_ne_nil _ _

theorem msWindows_replicate_zero (n : ℕ) :
    ∀ m ∈ msWindows (List.replicate n (0 : ℚ)), m = 0 := by
  intro m hm
  rcases List.mem_map.mp hm with ⟨c, hc, rfl⟩
  have hall : ∀ x ∈ c, x = (0 : ℚ) :=
    fun x hx => List.eq_of_mem_replicate (chunksF_subset _ _ c hc x hx)
  rw [meanSq, sumSq_eq_zero c hall, zero_div]

theorem msWindows_replicate_ne_nil (n : ℕ) (hn : 1 ≤ n) :
    msWindows (List.replicate n (0 : ℚ)) ≠ [] := by
  intro h
  have hch : chunks (List.replicate n (0 : ℚ)) = [] := List.map_eq_nil.mp h
  obtain ⟨k, rfl⟩ : ∃ k, n = k + 1 := ⟨n - 1, by omega⟩
  rw [chunks] at hch
  rw [List.length_replicate, List.replicate_succ] at hch
  exact chunksF_ne_nil k 0 _ hch

theorem peakAmp_replicate_zero (n : ℕ) :
    peakAmp (List.replicate n (0 : ℚ)) = 0 := by
  induction n with
  | zero => rfl
  | succ k ih =>
      rw [peakAmp, List.replicate_succ, List.foldl_cons]
      have : max (0 : ℚ) |(0 : ℚ)| = 0 := by simp
      rw [this]
      exact ih

theorem noiseIdx_lt (samples : List ℚ) (h : msWindows samples ≠ []) :
    noiseIdx samples < (sortedMS samples).length := by
  rw [sortedMS, (List.perm_insertionSort _ _).length_eq, noiseIdx]
  have hL : 1 ≤ (msWindows samples).length := List.length_pos.mpr h
  have hfloor : ⌊((msWindows samples).length : ℚ) * (1 / 10)⌋ =
      ((msWindows samples).length : ℤ) / 10 := by
    rw [mul_one_div]
    exact Rat.floor_natCast_div_natCast _ 10
  rw [hfloor, show (((msWindows samples).length : ℤ) / 10) =
      (((msWindows samples).length / 10 : ℕ) : ℤ) from (Int.ofNat_div _ _).symm,
    Int.toNat_natCast]
  exact Nat.div_lt_self hL (by norm_num)

theorem selMS_replicate_zero (n : ℕ) (hn : 1 ≤ n) :
    selMS (List.replicate n (0 : ℚ)) = some 0 := by
  have h1 := msWindows_replicate_ne_nil n hn
  have hlt := noiseIdx_lt _ h1
  rw [selMS, List.getElem?_eq_getElem hlt]
  have hmem := List.getElem_mem hlt
  rw [msWindows_replicate_zero n _ ((List.perm_insertionSort _ _).subset hmem)]

/-! ## Claim C3: the analyzer on the empty buffer -/

/-- Claim C3 counterexample: on the empty sample buffer the analyzer does
not fail — it produces a definite `AudioAnalysis` result whose decibel
outputs are the epsilon-fallback values (`20·log10(1e-8) = -160` for
loudness and peak, `20·log10(1e-7) = -140` for the noise floor). -/
theorem empty_buffer_counterexample :
    estLufsVal [] = -160 ∧ peakVal [] = -160 ∧ noiseFloorVal [] = -140 := by
  have hms : msGlobal ([] : List ℚ) = 0 := by
    rw [msGlobal, sumSq_eq_zero _ (by intro x hx; simp at hx), zero_div]
  have hpk : peakAmp ([] : List ℚ) = 0 := rfl
  have hsel : selMS ([] : List ℚ) = none := by decide
  refine ⟨?_, ?_, ?_⟩
  · rw [estLufsVal, if_pos hms]
    exact val_neg160
  · rw [peakVal, if_pos hpk]
    exact val_neg160
  · rw [noiseFloorVal, hsel]
    exact val_neg140

/-- Claim C3 amended: given the empty buffer the analyzer succeeds
(there is no `InvalidInput` failure path): the degenerate `0/0` mean
square and undefined percentile window both fall back to the fixed
epsilons, yielding `estLufs = peak = -160` dB and `noiseFloor = -140`
dB. -/
theorem empty_buffer_result :
    msGlobal [] = 0 ∧ peakAmp [] = 0 ∧ selMS [] = none ∧
    estLufsVal [] = roundTo1 (db20 (1 / 100000000)) ∧
    peakVal [] = roundTo1 (db20 (1 / 100000000)) ∧
    noiseFloorVal [] = roundTo1 (db20 (1 / 10000000)) ∧
    estLufsVal [] = -160 ∧ peakVal [] = -160 ∧ noiseFloorVal [] = -140 := by
  have hms : msGlobal ([] : List ℚ) = 0 := by
    rw [msGlobal, sumSq_eq_zero _ (by intro x hx; simp at hx), zero_div]
  have hpk : peakAmp ([] : List ℚ) = 0 := rfl
  have hsel : selMS ([] : List ℚ) = none := by decide
  refine ⟨hms, hpk, hsel, ?_, ?_, ?_, ?_, ?_, ?_⟩
  · rw [estLufsVal, if_pos hms]
  · rw [peakVal, if_pos hpk]
  · rw [noiseFloorVal, hsel]
  · rw [estLufsVal, if_pos hms]; exact val_neg160
  · rw [peakVal, if_pos hpk]; exact val_neg160
  · rw [noiseFloorVal, hsel]; exact val_neg140

/-! ## Claim C4: the all-zero (silent) buffer -/

/-- Claim C4 counterexample: on a silent three-sample buffer the three
decibel outputs do not all equal one fixed floor value: the noise floor
falls back to `1e-7` (giving `-140`) while loudness and peak fall back
to `1e-8` (giving `-160`). -/
theorem silent_buffer_counterexample :
    noiseFloorVal (List.replicate 3 0) = -140 ∧
    estLufsVal (List.replicate 3 0) = -160 ∧
    noiseFloorVal (List.replicate 3 0) ≠ estLufsVal (List.replicate 3 0) := by
  have hsel : selMS (List.replicate 3 (0 : ℚ)) = some 0 := by decide
  have hms : msGlobal (List.replicate 3 (0 : ℚ)) = 0 := by decide
  have hn : noiseFloorVal (List.replicate 3 0) = -140 := by
    rw [noiseFloorVal, hsel]
    simpa using val_neg140
  have he : estLufsVal (List.replicate 3 0) = -160 := by
    rw [estLufsVal, if_pos hms]
    exact val_neg160
  exact ⟨hn, he, by rw [hn, he]; norm_num⟩

/-- Claim C4 amended: for every all-zero buffer the analyzer produces
finite outputs (never `-∞`/NaN): `estLufs` and `peak` both equal the
`1e-8`-fallback value `-160` dB, while `noiseFloor` equals the
`1e-7`-fallback value `-140` dB — two distinct floors, not one. -/
theorem silent_buffer_analysis (n : ℕ) (hn : 1 ≤ n) :
    estLufsVal (List.replicate n 0) = -160 ∧
    peakVal (List.replicate n 0) = -160 ∧
    noiseFloorVal (List.replicate n 0) = -140 := by
  have hms : msGlobal (List.replicate n (0 : ℚ)) = 0 := by
    rw [msGlobal, sumSq_eq_zero _ (fun x hx => List.eq_of_mem_replicate hx), zero_div]
  refine ⟨?_, ?_, ?_⟩
  · rw [estLufsVal, if_pos hms]
    exact val_neg160
  · rw [peakVal, if_pos (peakAmp_replicate_zero n)]
    exact val_neg160
  · rw [noiseFloorVal, selMS_replicate_zero n hn]
    simpa using val_neg140

/-- Witness for `silent_buffer_analysis` at a three-sample silent buffer. -/
theorem silent_buffer_analysis_witness :
    1 ≤ 3 ∧
    (estLufsVal (List.replicate 3 0) = -160 ∧
      peakVal (List.replicate 3 0) = -160 ∧
      noiseFloorVal (List.replicate 3 0) = -140) :=
  ⟨by norm_num, silent_buffer_analysis 3 (by norm_num)⟩

/-! ## Claim C5: the noise-floor percentile estimate -/

/-- Claim C5 counterexample: for the one-sample buffer `[1/2]` the
10th-percentile window RMS is `1/2`, but the `noiseFloor` output is `20·log10(1/2)` rounded to one decimal (`toFixed(1)`), which
is a rational number and therefore differs from the exact
`20·log10(1/2)` the claim asserts. -/
theorem noise_floor_rounding_counterexample :
    msWindows [(1 : ℚ)/2] = [1/4] ∧
    noiseIdx [(1 : ℚ)/2] = 0 ∧
    sortedMS [(1 : ℚ)/2] = [1/4] ∧
    Real.sqrt ((1/4 : ℚ) : ℝ) = 1/2 ∧
    noiseFloorVal [(1 : ℚ)/2] ≠ db20 (Real.sqrt ((1/4 : ℚ) : ℝ)) := by
  have hsqrt : Real.sqrt ((1/4 : ℚ) : ℝ) = 1/2 := by
    rw [show ((1/4 : ℚ) : ℝ) = (1/2 : ℝ)^2 by norm_num,
      Real.sqrt_sq (by norm_num : (0 : ℝ) ≤ 1/2)]
  refine ⟨by decide, by decide, by decide, hsqrt, ?_⟩
  have hsel : selMS [(1 : ℚ)/2] = some (1/4) := by decide
  rw [noiseFloorVal, hsel]
  have h14 : ¬((1/4 : ℚ) = 0) := by norm_num
  simp only [h14, if_false]
  rw [hsqrt]
  intro heq
  simp only [roundTo1] at heq
  set m := ⌊db20 ((1 : ℝ)/2) * 10 + 1/2⌋ with hm
  have hlogb : db20 ((1 : ℝ)/2) = 20 * (Real.log (1/2) / Real.log 10) := by
    simp only [db20, Real.logb]
  have hlog10 : (0 : ℝ) < Real.log 10 := Real.log_pos (by norm_num)
  rw [hlogb] at heq
  have hlin : (m : ℝ) * Real.log 10 = 200 * Real.log (1/2) := by
    field_simp at heq
    linarith
  have hlogeq : Real.log ((10 : ℝ) ^ (m : ℤ)) = Real.log (((1 : ℝ)/2) ^ (200 : ℕ)) := by
    rw [Real.log_zpow, Real.log_pow]
    push_cast
    linarith
  have h4 : (10 : ℝ) ^ (m : ℤ) = ((1 : ℝ)/2) ^ (200 : ℕ) :=
    Real.log_injOn_pos (Set.mem_Ioi.mpr (by positivity))
      (Set.mem_Ioi.mpr (by positivity)) hlogeq
  have h5 : ((1 : ℝ)/2) ^ (200 : ℕ) < 1 :=
    pow_lt_one (by norm_num) (by norm_num) (by norm_num)
  have h6 : (10 : ℝ) ^ (m : ℤ) < 1 := by rw [h4]; exact h5
  have h7 : m < 0 := by
    by_contra hpos
    push_neg at hpos
    obtain ⟨k, hposk⟩ := Int.eq_ofNat_of_zero_le hpos
    rw [hposk, zpow_natCast] at h6
    have h8 : (1 : ℝ) ≤ 10 ^ k := one_le_pow₀ (by norm_num)
    linarith
  have hk : m = -(((-m).toNat : ℕ) : ℤ) := by omega
  have hk1 : 1 ≤ (-m).toNat := by omega
  rw [hk, zpow_neg, zpow_natCast] at h4
  have hinv : ((1 : ℝ)/2) ^ (200 : ℕ) = ((2 : ℝ) ^ (200 : ℕ))⁻¹ := by
    rw [one_div, inv_pow]
  rw [hinv] at h4
  have h9 : (10 : ℝ) ^ (-m).toNat = (2 : ℝ) ^ (200 : ℕ) := inv_injective h4
  have hN : (10 : ℕ) ^ (-m).toNat = 2 ^ (200 : ℕ) := by exact_mod_cast h9
  have h5d : (5 : ℕ) ∣ 10 ^ (-m).toNat := dvd_pow (by norm_num) (by omega)
  rw [hN] at h5d
  have h52 := Nat.Prime.dvd_of_dvd_pow (p := 5) (by norm_num) h5d
  norm_num at h52

/-- Claim C5 amended: for every non-empty buffer and every ascending
sorted arrangement `l` of the per-window mean squares (windows of 4096
samples, the final partial window weighted by its own count), the
noiseFloor output of the analyzer equals `20·log10` of the square root of the
entry of `l` at index `floor(0.1 × windowCount)` — with the `1e-7`
fallback substituted when that entry is zero — rounded to one decimal
place (`toFixed(1)`), rather than the exact logarithm. -/
theorem noise_floor_percentile (samples l : List ℚ) (hne : samples ≠ [])
    (hperm : l.Perm (msWindows samples))
    (hsort : l.Sorted (fun a b => a ≤ b)) (q : ℚ)
    (hq : l[noiseIdx samples]? = some q) :
    noiseFloorVal samples =
      roundTo1 (db20 (if q = 0 then 1 / 10000000 else Real.sqrt (q : ℝ))) := by
  have hs2 : (sortedMS samples).Sorted (fun a b => a ≤ b) :=
    List.sorted_insertionSort _ _
  have hp2 : (sortedMS samples).Perm (msWindows samples) :=
    List.perm_insertionSort _ _
  have hl : l = sortedMS samples :=
    List.eq_of_perm_of_sorted (hperm.trans hp2.symm) hsort hs2
  rw [hl] at hq
  rw [noiseFloorVal, show selMS samples = some q from hq]

/-- Witness for `noise_floor_percentile` at the one-sample buffer `[1]`. -/
theorem noise_floor_percentile_witness :
    ([(1 : ℚ)] ≠ []) ∧ List.Perm [(1 : ℚ)] (msWindows [(1 : ℚ)]) ∧
    List.Sorted (fun a b => a ≤ b) [(1 : ℚ)] ∧
    ([(1 : ℚ)])[noiseIdx [(1 : ℚ)]]? = some 1 ∧
    noiseFloorVal [(1 : ℚ)] =
      roundTo1 (db20 (if (1 : ℚ) = 0 then 1 / 10000000 else Real.sqrt ((1 : ℚ) : ℝ))) :=
  ⟨by decide, by decide, by decide, by decide,
    noise_floor_percentile [(1 : ℚ)] [(1 : ℚ)] (by decide) (by decide) (by decide) 1
      (by decide)⟩

/-! ## Claim C2: the full plan is two passes plus cleanup, with fallbacks -/

/-- Occurrence counting over the full-script template: for any target
line whose first character differs from the first characters of all
interpolation-dependent lines, the count ignores the interpolated lines
and equals the count over the interpolation-free lines of the template. -/
theorem scriptLines_count (t inS outS flacS tgtS tpS lraS brS : String)
    (s1 s2 s3 s4 s5 s6 s7 : String)
    (h1 : s1.data.head? = some 'h') (h2 : s2.data.head? = some 'a')
    (h3 : s3.data.head? = some 'l') (h4 : s4.data.head? = some 'd')
    (h5 : s5.data.head? = some 'a') (h6 : s6.data.head? = some 'l')
    (h7 : s7.data.head? = some 'a')
    (n1 : t.data.head? ≠ some 'I') (n2 : t.data.head? ≠ some 'O')
    (n3 : t.data.head? ≠ some '#') (n4 : t.data.head? ≠ some 'f')
    (n5 : t.data.head? ≠ some 'L') (n6 : t.data.head? ≠ some ':')
    (n7 : t.data.head? ≠ some 'h') (n8 : t.data.head? ≠ some 'a')
    (n9 : t.data.head? ≠ some 'l') (n10 : t.data.head? ≠ some 'd')
    (n11 : t.data.head? ≠ some '-') :
    (scriptLines inS outS flacS tgtS tpS lraS brS s1 s2 s3 s4 s5 s6 s7).count t =
      List.count t
        [ "#!/bin/bash",
          "# VOICE ENHANCEMENT STUDIO - AUDIOBOOK MASTERING SCRIPT (FLAC Workflow)",
          "",
          "TEMP_FLAC=\"/tmp/temp_analysis_$(date +%s).flac\"",
          "",
          "echo \">> 🎧 PHASE 1: ANALYSIS & MEASUREMENT\"",
          "# -map_metadata 0 preserves chapters and tags from source",
          "# -nostdin prevents ffmpeg from consuming the rest of this script as input",
          "echo \"   ...extracting to intermediate FLAC...\"",
          "",
          "# Analyze loudness and noise floor from FLAC",
          "echo \"   ...measuring dynamics and spectrum...\"",
          "",
          "# Extract measured values",
          "# Uses escaped newline for tr to prevent multiline syntax errors in bash",
          "MEASURED_I=$(echo \"$LOUDNESS_DATA\" | grep \x27\"input_i\"\x27 | cut -d : -f 2 | tr -d \x27\", \\n\x27)",
          "MEASURED_TP=$(echo \"$LOUDNESS_DATA\" | grep \x27\"input_tp\"\x27 | cut -d : -f 2 | tr -d \x27\", \\n\x27)",
          "MEASURED_LRA=$(echo \"$LOUDNESS_DATA\" | grep \x27\"input_lra\"\x27 | cut -d : -f 2 | tr -d \x27\", \\n\x27)",
          "MEASURED_THRESH=$(echo \"$LOUDNESS_DATA\" | grep \x27\"input_thresh\"\x27 | cut -d : -f 2 | tr -d \x27\", \\n\x27)",
          "OFFSET=$(echo \"$LOUDNESS_DATA\" | grep \x27\"target_offset\"\x27 | cut -d : -f 2 | tr -d \x27\", \\n\x27)",
          "",
          "echo \"   ...Captured: I=$MEASURED_I TP=$MEASURED_TP LRA=$MEASURED_LRA\"",
          "",
          "# Fallback values in case analysis failed (prevents syntax errors in next step)",
          ": $\x7bMEASURED_THRESH:=-70.0\x7d",
          ": $\x7bOFFSET:=0.0\x7d",
          "",
          "echo \">> 🎹 PHASE 2: PRECISION PROCESSING\"",
          "# Process from the intermediate FLAC",
          "# Map metadata from it to ensure chapters are preserved",
          "ffmpeg -nostdin -i \"$TEMP_FLAC\" -filter_complex \"\\",
          "[0:a]" ++ (aformatInput ++ ",\\"),
          click ++ ",\\",
          aformatMono ++ "[out]\" \\",
          "-map \"[out]\" \\",
          "-vn -map_metadata 0 \\",
          "\"$OUTPUT\"",
          "",
          "# Cleanup",
          "rm \"$TEMP_FLAC\"",
          "echo \">> ✅ PROCESSING COMPLETE: $OUTPUT\"",
          "" ] := by
  have f1 : (("INPUT=\"" ++ (inS ++ "\"")) == t) = false :=
    beq_eq_false_iff_ne.mpr (ne_of_head_ne t _ 'I' (head_append _ _ _ (by decide)) n1)
  have f2 : (("OUTPUT=\"" ++ (outS ++ "\"")) == t) = false :=
    beq_eq_false_iff_ne.mpr (ne_of_head_ne t _ 'O' (head_append _ _ _ (by decide)) n2)
  have f3 : (("# Extract to temporary FLAC (Lossless, Compressed Level " ++ (flacS ++ ")")) == t) = false :=
    beq_eq_false_iff_ne.mpr (ne_of_head_ne t _ '#' (head_append _ _ _ (by decide)) n3)
  have f4 : (("ffmpeg -nostdin -v warning -i \"$INPUT\" -vn -acodec flac -compression_level " ++
      (flacS ++ " -ar 44100 -map_metadata 0 \"$TEMP_FLAC\" -y")) == t) = false :=
    beq_eq_false_iff_ne.mpr (ne_of_head_ne t _ 'f' (head_append _ _ _ (by decide)) n4)
  have f5 : (("LOUDNESS_DATA=$(ffmpeg -nostdin -i \"$TEMP_FLAC\" -af loudnorm=I=" ++
      (tgtS ++
        (":TP=" ++
          (tpS ++
            (":LRA=" ++
              (lraS ++
                ":print_format=json -f null - 2>&1 | grep -A 12 \"loudnorm\" | tail -n 12)")))))) == t) = false :=
    beq_eq_false_iff_ne.mpr (ne_of_head_ne t _ 'L' (head_append _ _ _ (by decide)) n5)
  have f6 : ((": $\x7bMEASURED_I:=" ++ (tgtS ++ "\x7d")) == t) = false :=
    beq_eq_false_iff_ne.mpr (ne_of_head_ne t _ ':' (head_append _ _ _ (by decide)) n6)
  have f7 : ((": $\x7bMEASURED_TP:=" ++ (tpS ++ "\x7d")) == t) = false :=
    beq_eq_false_iff_ne.mpr (ne_of_head_ne t _ ':' (head_append _ _ _ (by decide)) n6)
  have f8 : ((": $\x7bMEASURED_LRA:=" ++ (lraS ++ "\x7d")) == t) = false :=
    beq_eq_false_iff_ne.mpr (ne_of_head_ne t _ ':' (head_append _ _ _ (by decide)) n6)
  have f9 : ((s1 ++ ",\\") == t) = false :=
    beq_eq_false_iff_ne.mpr (ne_of_head_ne t _ 'h' (head_append _ _ _ h1) n7)
  have f10 : ((s2 ++ ",\\") == t) = false :=
    beq_eq_false_iff_ne.mpr (ne_of_head_ne t _ 'a' (head_append _ _ _ h2) n8)
  have f11 : ((s3 ++ ",\\") == t) = false :=
    beq_eq_false_iff_ne.mpr (ne_of_head_ne t _ 'l' (head_append _ _ _ h3) n9)
  have f12 : ((s4 ++ ",\\") == t) = false :=
    beq_eq_false_iff_ne.mpr (ne_of_head_ne t _ 'd' (head_append _ _ _ h4) n10)
  have f13 : ((s5 ++ ",\\") == t) = false :=
    beq_eq_false_iff_ne.mpr (ne_of_head_ne t _ 'a' (head_append _ _ _ h5) n8)
  have f14 : ((s6 ++ ",\\") == t) = false :=
    beq_eq_false_iff_ne.mpr (ne_of_head_ne t _ 'l' (head_append _ _ _ h6) n9)
  have f15 : ((s7 ++ ",\\") == t) = false :=
    beq_eq_false_iff_ne.mpr (ne_of_head_ne t _ 'a' (head_append _ _ _ h7) n8)
  have f16 : (("-c:a aac -b:a " ++ (brS ++ "k -movflags +faststart \\")) == t) = false :=
    beq_eq_false_iff_ne.mpr (ne_of_head_ne t _ '-' (head_append _ _ _ (by decide)) n11)
  simp only [scriptLines, List.count_cons, List.count_nil, f1, f2, f3, f4, f5, f6, f7,
    f8, f9, f10, f11, f12, f13, f14, f15, f16, Bool.false_eq_true, if_false, add_zero,
    zero_add]

/-- Claim C2: for every configuration and paths, the full-export plan is
the two-pass protocol — exactly one PHASE 1 (measure) marker and exactly
one PHASE 2 (process) marker — plus the cleanup step removing the
intermediate FLAC, and it always contains the five deterministic
fallback substitutions: the configured loudness target for measured I,
the configured true peak for measured TP, the configured LRA for
measured LRA, `-70.0` for the threshold and `0.0` for the offset; plan
generation is total, never an error. -/
theorem full_plan_two_pass (cfg : AudioConfig) (i : String) (o : Option String) :
    generateFFmpegCommand cfg i Mode.full o =
      String.intercalate "\n" (fullScriptLines cfg i o) ∧
    (fullScriptLines cfg i o).count "echo \">> 🎧 PHASE 1: ANALYSIS & MEASUREMENT\"" = 1 ∧
    (fullScriptLines cfg i o).count "echo \">> 🎹 PHASE 2: PRECISION PROCESSING\"" = 1 ∧
    "rm \"$TEMP_FLAC\"" ∈ fullScriptLines cfg i o ∧
    (": $\x7bMEASURED_I:=" ++ (numStr cfg.loudnormTarget ++ "\x7d")) ∈ fullScriptLines cfg i o ∧
    (": $\x7bMEASURED_TP:=" ++ (numStr cfg.loudnormTp ++ "\x7d")) ∈ fullScriptLines cfg i o ∧
    (": $\x7bMEASURED_LRA:=" ++ (numStr cfg.loudnormLra ++ "\x7d")) ∈ fullScriptLines cfg i o ∧
    ": $\x7bMEASURED_THRESH:=-70.0\x7d" ∈ fullScriptLines cfg i o ∧
    ": $\x7bOFFSET:=0.0\x7d" ∈ fullScriptLines cfg i o := by
  refine ⟨rfl, ?_, ?_, ?_, ?_, ?_, ?_, ?_, ?_⟩
  · simp only [fullScriptLines]
    rw [scriptLines_count _ _ _ _ _ _ _ _ _ _ _ _ _ _ _ (highpass_head cfg)
      (afftdn_head cfg) (lowpass_head cfg) (deesser_head cfg) (compressor_head cfg)
      (loudnormFull_head cfg) (limiter_head cfg) (by decide) (by decide) (by decide)
      (by decide) (by decide) (by decide) (by decide) (by decide) (by decide)
      (by decide) (by decide)]
    decide
  · simp only [fullScriptLines]
    rw [scriptLines_count _ _ _ _ _ _ _ _ _ _ _ _ _ _ _ (highpass_head cfg)
      (afftdn_head cfg) (lowpass_head cfg) (deesser_head cfg) (compressor_head cfg)
      (loudnormFull_head cfg) (limiter_head cfg) (by decide) (by decide) (by decide)
      (by decide) (by decide) (by decide) (by decide) (by decide) (by decide)
      (by decide) (by decide)]
    decide
  · simp only [fullScriptLines]
    simp [scriptLines]
  · simp only [fullScriptLines]
    simp [scriptLines]
  · simp only [fullScriptLines]
    simp [scriptLines]
  · simp only [fullScriptLines]
    simp [scriptLines]
  · simp only [fullScriptLines]
    simp [scriptLines]
  · simp only [fullScriptLines]
    simp [scriptLines]

end

end AudioForge
